import Mathlib

/-!
Shallow embedding of the China Map Dashboard drill-down / cache logic.

Source files embedded:
- `src/types.ts` — the `MapData`, `GeoJSONFeature` and `GeoJSON` shapes;
- `src/components/ChinaMapDashboard.tsx` — the region registry
  (`PROVINCE_ADCODES`), the helpers `getLast7Days` and `generateData`, the
  loader `loadMap`, the chart click handler, the timeline date selection and
  the render effect's dependency list.

Modelling conventions:
- React state is a record `ViewState`; each `setX` call becomes a record
  update, and an operation returns the state it leaves behind.
- The module-level boundary cache (`mapCache`) is an association list from
  map identifier to geometry, threaded through `loadMap` explicitly.
  `Map.get` is `List.lookup`; `Map.set` conses the new binding in front,
  which is lookup-equivalent to the JS overwrite.
- The network (`fetch` of the adcode-derived URL, the `response.ok` check
  and JSON parsing) is a parameter `net : Nat → Except String GeoJSON`;
  `Except.error` covers a non-success status, a transport error, or a parse
  failure — exactly the events that make the `try` block throw.
- Observable effects are recorded in the result: `requests` lists the
  adcodes for which a network fetch was issued, `registered` lists the
  `echarts.registerMap` calls.
- Dates are day indices (integers): `new Date()` minus `i` days is
  `today - i`, and `toISOString().split('T')[0]` is an order-preserving,
  injective map from day indices to the displayed strings, so the window,
  ordering and idempotence facts transfer verbatim.
- `Math.random()` is a stream `rand : Nat → ℚ` of values in `[0, 1)`; the
  `i`-th generated sample consumes `rand (2*i)` for `value` and
  `rand (2*i+1)` for `growth`. `toFixed(2)` followed by `parseFloat` is
  rounding to two decimal places.
-/

/-- The relevant part of a feature's `properties` (`src/types.ts`): the
dashboard logic only ever reads `name`; `adcode` is optional metadata. -/
structure FeatureProperties where
  name : String
  adcode : Option Nat := none
  deriving DecidableEq, Repr

/-- A GeoJSON feature (`src/types.ts`). The `geometry` payload is opaque to
all dashboard logic, so it is modelled as an uninterpreted blob. -/
structure GeoJSONFeature where
  type : String := "Feature"
  properties : FeatureProperties
  geometry : String := ""
  deriving DecidableEq, Repr

/-- A GeoJSON feature collection (`src/types.ts`). -/
structure GeoJSON where
  type : String := "FeatureCollection"
  features : List GeoJSONFeature
  deriving DecidableEq, Repr

/-- One synthetic metric sample (`MapData` in `src/types.ts`): `value` is an
integer (produced by `Math.floor`), `growth` a two-decimal rational. -/
structure MapData where
  name : String
  value : Int
  growth : ℚ
  deriving DecidableEq, Repr

/-- The React state of `ChinaMapDashboard`, one field per `useState` hook
(`dates` has no setter in the source, so no operation below writes it). -/
structure ViewState where
  isLoading : Bool
  error : Option String
  dates : List Int
  selectedDate : Int
  currentMapName : String
  currentAdcode : Nat
  currentRegionNames : List String
  deriving DecidableEq, Repr

/-- Base URL for boundary data (constant `MAP_BASE_URL`). -/
def MAP_BASE_URL : String := "https://geo.datav.aliyun.com/areas_v3/bound"

/-- The URL fetched for an administrative code: deterministic in the code
(template `${MAP_BASE_URL}/${adcode}_full.json`). -/
def mapUrl (adcode : Nat) : String :=
  MAP_BASE_URL ++ "/" ++ toString adcode ++ "_full.json"

/-- The region registry: complete adcode mapping for drill-down
(`PROVINCE_ADCODES` in `ChinaMapDashboard.tsx`, in source order). -/
def PROVINCE_ADCODES : List (String × Nat) :=
  [("北京市", 110000), ("天津市", 120000), ("河北省", 130000),
   ("山西省", 140000), ("内蒙古自治区", 150000),
   ("辽宁省", 210000), ("吉林省", 220000), ("黑龙江省", 230000),
   ("上海市", 310000), ("江苏省", 320000),
   ("浙江省", 330000), ("安徽省", 340000), ("福建省", 350000),
   ("江西省", 360000), ("山东省", 370000),
   ("河南省", 410000), ("湖北省", 420000), ("湖南省", 430000),
   ("广东省", 440000), ("广西壮族自治区", 450000),
   ("海南省", 460000), ("重庆市", 500000), ("四川省", 510000),
   ("贵州省", 520000), ("云南省", 530000),
   ("西藏自治区", 540000), ("陕西省", 610000), ("甘肃省", 620000),
   ("青海省", 630000), ("宁夏回族自治区", 640000),
   ("新疆维吾尔自治区", 650000), ("台湾省", 710000),
   ("香港特别行政区", 810000), ("澳门特别行政区", 820000)]

/-- `Object.keys(PROVINCE_ADCODES)` — initial default provinces, in the
registry's insertion order. -/
def INITIAL_PROVINCES : List String := PROVINCE_ADCODES.map Prod.fst

/-- `getLast7Days`: the loop runs `i = 6, 5, …, 0` and pushes the day
`i` days before today, so the result is the reverse of
`[today - 0, today - 1, …, today - 6]`. -/
def getLast7Days (today : Int) : List Int :=
  ((List.range 7).map (fun i => today - (i : Int))).reverse

/-- One sample of `generateData`: `value = Math.floor(r₁ * 9000) + 1000` and
`growth = parseFloat((r₂ * 0.4 - 0.2).toFixed(2))`, with `toFixed(2)` +
`parseFloat` modelled as rounding to two decimals. -/
def genDatum (r₁ r₂ : ℚ) (name : String) : MapData :=
  { name := name
    value := ⌊r₁ * 9000⌋ + 1000
    growth := ((round ((r₂ * (2 / 5) - 1 / 5) * 100) : ℤ) : ℚ) / 100 }

/-- `generateData(regionNames)` body: each `.map` callback calls
`Math.random()` twice, so the callback for the `i`-th name consumes the
next two values `rand k` and `rand (k + 1)` of the stream. -/
def generateDataAux (rand : Nat → ℚ) (k : Nat) : List String → List MapData
  | [] => []
  | name :: rest => genDatum (rand k) (rand (k + 1)) name :: generateDataAux rand (k + 2) rest

/-- `generateData(regionNames)`: one sample per input name, in input order,
drawing from the random stream starting at position 0. -/
def generateData (rand : Nat → ℚ) (regionNames : List String) : List MapData :=
  generateDataAux rand 0 regionNames

/-- The boundary cache: `mapCache : Map<string, GeoJSON>`, keyed by map
identifier. -/
abbrev MapCache : Type := List (String × GeoJSON)

/-- The boundary part of the network interface: what `fetch` + `response.ok`
+ `response.json()` yields for a given administrative code (the URL is
`mapUrl adcode`). -/
abbrev Net : Type := Nat → Except String GeoJSON

/-- The observable outcome of one operation: the state left behind, the
cache left behind, the adcodes actually fetched over the network, and the
`echarts.registerMap` calls made. -/
structure LoadResult where
  state : ViewState
  cache : List (String × GeoJSON)
  requests : List Nat
  registered : List (String × GeoJSON)
  deriving DecidableEq, Repr

/-- The first two statements of `loadMap`: `setIsLoading(true)` then
`setError(null)` — every load attempt clears the error before anything can
fail. -/
def loadStart (st : ViewState) : ViewState :=
  { st with isLoading := true, error := none }

/-- Step 6 of the loader: `geoJson.features.map(f => f.properties.name)
.filter(Boolean)` — for strings, `Boolean` keeps exactly the non-empty
ones. -/
def extractRegionNames (g : GeoJSON) : List String :=
  (g.features.map (fun f => f.properties.name)).filter (fun s => !s.isEmpty)

/-- The error message built in the `catch` block of `loadMap`. -/
def loadErrorMessage (mapName : String) : String :=
  "Unable to load map for " ++ mapName ++ ". Please check network or adcode."

/-- `loadMap(adcode, mapName)`: set loading, clear error, look the map name
up in the cache; on a miss fetch by adcode (recording the request) and cache
the parsed body under the map name; on success register the geometry and
update the region names, map name, adcode and loading flag; on any throw set
the error message and clear the loading flag, touching nothing else. -/
def loadMap (net : Net) (cache : List (String × GeoJSON)) (st : ViewState)
    (adcode : Nat) (mapName : String) : LoadResult :=
  let st₁ := loadStart st
  match cache.lookup mapName with
  | some geoJson =>
      { state := { st₁ with
          currentRegionNames := extractRegionNames geoJson
          currentMapName := mapName
          currentAdcode := adcode
          isLoading := false }
        cache := cache
        requests := []
        registered := [(mapName, geoJson)] }
  | none =>
      match net adcode with
      | Except.ok geoJson =>
          { state := { st₁ with
              currentRegionNames := extractRegionNames geoJson
              currentMapName := mapName
              currentAdcode := adcode
              isLoading := false }
            cache := (mapName, geoJson) :: cache
            requests := [adcode]
            registered := [(mapName, geoJson)] }
      | Except.error _ =>
          { state := { st₁ with
              error := some (loadErrorMessage mapName)
              isLoading := false }
            cache := cache
            requests := [adcode]
            registered := [] }

/-- The result of an operation that does nothing: state and cache unchanged,
no fetch, no map registration. -/
def noopResult (cache : List (String × GeoJSON)) (st : ViewState) : LoadResult :=
  { state := st, cache := cache, requests := [], registered := [] }

/-- The chart click handler: on a `series` click with a truthy name, look
the name up in `PROVINCE_ADCODES`; a truthy adcode triggers
`loadMap(adcode, provinceName)`, anything else only logs. -/
def handleClick (net : Net) (cache : List (String × GeoJSON)) (st : ViewState)
    (componentType : String) (name : String) : LoadResult :=
  if componentType == "series" && !name.isEmpty then
    match PROVINCE_ADCODES.lookup name with
    | some adcode =>
        if adcode ≠ 0 then loadMap net cache st adcode name
        else noopResult cache st
    | none => noopResult cache st
  else noopResult cache st

/-- The timeline entry's `onClick`: `setSelectedDate(date)`. -/
def selectDate (st : ViewState) (date : Int) : ViewState :=
  { st with selectedDate := date }

/-- The dependency list of the render effect:
`[currentMapName, currentRegionNames, selectedDate, isLoading]`. -/
def renderDeps (st : ViewState) : String × List String × Int × Bool :=
  (st.currentMapName, st.currentRegionNames, st.selectedDate, st.isLoading)

/-- The render effect (and with it `generateData`) re-runs after a state
change exactly when some entry of its dependency list changed. -/
def rerunsRenderEffect (prev cur : ViewState) : Bool :=
  decide (renderDeps prev ≠ renderDeps cur)

/-- The initial React state: loading, no error, the 7-day window computed
once, today (`getLast7Days()[6]`) selected, national map (`china`, adcode
100000), initial provinces visible. -/
def initialState (today : Int) : ViewState :=
  { isLoading := true
    error := none
    dates := getLast7Days today
    selectedDate := (getLast7Days today).getD 6 0
    currentMapName := "china"
    currentAdcode := 100000
    currentRegionNames := INITIAL_PROVINCES }

/-! ## Concrete fixtures used by the witness theorems -/

/-- A small concrete boundary geometry: two named features and one feature
with an empty (falsy) name. -/
def sampleGeo : GeoJSON :=
  { features :=
      [{ properties := { name := "广州市" } },
       { properties := { name := "" } },
       { properties := { name := "深圳市" } }] }

/-- A network that always fails (HTTP 500 / transport error / parse error
all surface the same way to the `catch` block). -/
def sampleNetError : Net := fun _ => Except.error "HTTP 500"

/-- A network that always succeeds with `sampleGeo`. -/
def sampleNetOk : Net := fun _ => Except.ok sampleGeo

/-- A small concrete view state. -/
def sampleState : ViewState :=
  { isLoading := false
    error := none
    dates := [0, 1, 2, 3, 4, 5, 6]
    selectedDate := 6
    currentMapName := "china"
    currentAdcode := 100000
    currentRegionNames := ["北京市"] }

/-! ## C1 — cache hit issues no network request -/

/-- C1: if `mapName` is already in the boundary cache, `loadMap` issues no
network request and resolves from the cached geometry: the fetched-adcode
list is empty, the visible region names come from the cached geometry, that
geometry is re-registered, and the cache is unchanged. -/
theorem loadMap_cache_hit_no_request (net : Net) (cache : MapCache) (st : ViewState)
    (adcode : Nat) (mapName : String) (g : GeoJSON)
    (h : cache.lookup mapName = some g) :
    (loadMap net cache st adcode mapName).requests = [] ∧
    (loadMap net cache st adcode mapName).state.currentRegionNames = extractRegionNames g ∧
    (loadMap net cache st adcode mapName).registered = [(mapName, g)] ∧
    (loadMap net cache st adcode mapName).cache = cache := by
  simp [loadMap, h]

/-- C1 witness: with `"广东省"` cached, a load of `"广东省"` through an
always-failing network still succeeds with no request. -/
theorem loadMap_cache_hit_no_request_witness :
    (([("广东省", sampleGeo)] : MapCache).lookup "广东省" = some sampleGeo) ∧
    (loadMap sampleNetError [("广东省", sampleGeo)] sampleState 440000 "广东省").requests = [] ∧
    (loadMap sampleNetError [("广东省", sampleGeo)] sampleState 440000 "广东省").state.currentRegionNames =
      extractRegionNames sampleGeo := by
  refine ⟨rfl, ?_, ?_⟩
  · exact (loadMap_cache_hit_no_request sampleNetError [("广东省", sampleGeo)] sampleState
      440000 "广东省" sampleGeo rfl).1
  · exact (loadMap_cache_hit_no_request sampleNetError [("广东省", sampleGeo)] sampleState
      440000 "广东省" sampleGeo rfl).2.1

/-! ## C2 — the loading flag is cleared however the load settles -/

/-- C2: `loadMap` sets `isLoading` to `true` at invocation (before anything
can fail), and whichever way it settles — cache hit, successful fetch, or
failure — the final state has `isLoading = false`. -/
theorem loadMap_clears_isLoading (net : Net) (cache : MapCache) (st : ViewState)
    (adcode : Nat) (mapName : String) :
    (loadStart st).isLoading = true ∧
    (loadMap net cache st adcode mapName).state.isLoading = false := by
  refine ⟨rfl, ?_⟩
  unfold loadMap
  cases h : cache.lookup mapName with
  | some g => simp
  | none => cases hn : net adcode <;> simp

/-! ## C4 — clicking a region absent from the registry is a no-op -/

/-- C4: for any click (any component type) whose region name has no entry in
`PROVINCE_ADCODES`, the handler is a no-op: the view state is returned
unchanged in every field, no network request is issued, no map is
registered, and the cache is untouched. -/
theorem handleClick_unknown_region_noop (net : Net) (cache : MapCache) (st : ViewState)
    (componentType : String) (name : String)
    (h : PROVINCE_ADCODES.lookup name = none) :
    handleClick net cache st componentType name = noopResult cache st := by
  unfold handleClick
  split
  · rw [h]
  · rfl

/-- C4 witness: `"深圳市"` (a city, not a province) is absent from the
registry, so a series click on it leaves state and cache untouched. -/
theorem handleClick_unknown_region_noop_witness :
    PROVINCE_ADCODES.lookup "深圳市" = none ∧
    handleClick sampleNetOk [] sampleState "series" "深圳市" = noopResult [] sampleState :=
  ⟨rfl, handleClick_unknown_region_noop sampleNetOk [] sampleState "series" "深圳市" rfl⟩

/-! ## C9 — selecting the selected date again changes nothing -/

/-- C9: date selection is idempotent: selecting `d` again after selecting
`d` yields the very same state, and the second selection leaves every entry
of the render effect's dependency list unchanged, so no additional metric
regeneration or re-render is triggered. -/
theorem selectDate_idempotent (st : ViewState) (d : Int) :
    selectDate (selectDate st d) d = selectDate st d ∧
    rerunsRenderEffect (selectDate st d) (selectDate (selectDate st d) d) = false := by
  constructor
  · rfl
  · simp only [rerunsRenderEffect, ne_eq, decide_not, Bool.not_eq_false',
      decide_eq_true_eq]
    rfl

/-! ## C3 — failures are caught and surfaced as an error message -/

/-- C3: every load attempt clears the error first (`setError(null)` runs
before anything can fail); the settled error is either `none` or exactly the
human-readable message that names the map identifier; it is the message
precisely when the load failed (cache miss and failing fetch/parse), and it
is `none` whenever the load succeeded (cache hit, or successful fetch and
parse). -/
theorem loadMap_error_handling (net : Net) (cache : MapCache) (st : ViewState)
    (adcode : Nat) (mapName : String) :
    (loadStart st).error = none ∧
    loadErrorMessage mapName =
      "Unable to load map for " ++ mapName ++ ". Please check network or adcode." ∧
    ((loadMap net cache st adcode mapName).state.error = none ∨
      (loadMap net cache st adcode mapName).state.error = some (loadErrorMessage mapName)) ∧
    (∀ e, cache.lookup mapName = none → net adcode = Except.error e →
      (loadMap net cache st adcode mapName).state.error = some (loadErrorMessage mapName)) ∧
    (∀ g, cache.lookup mapName = some g →
      (loadMap net cache st adcode mapName).state.error = none) ∧
    (∀ g, cache.lookup mapName = none → net adcode = Except.ok g →
      (loadMap net cache st adcode mapName).state.error = none) := by
  refine ⟨rfl, rfl, ?_, ?_, ?_, ?_⟩
  · unfold loadMap
    cases h : cache.lookup mapName with
    | some g => simp [loadStart]
    | none => cases hn : net adcode <;> simp [loadStart]
  · intro e h hn
    simp [loadMap, h, hn]
  · intro g h
    simp [loadMap, h, loadStart]
  · intro g h hn
    simp [loadMap, h, hn, loadStart]

/-- C3 witness: a cache miss whose fetch fails yields exactly the message
naming the requested map. -/
theorem loadMap_error_handling_witness :
    ([] : MapCache).lookup "广东省" = none ∧
    sampleNetError 440000 = Except.error "HTTP 500" ∧
    (loadMap sampleNetError [] sampleState 440000 "广东省").state.error =
      some (loadErrorMessage "广东省") :=
  ⟨rfl, rfl,
    (loadMap_error_handling sampleNetError [] sampleState 440000 "广东省").2.2.2.1
      "HTTP 500" rfl rfl⟩

/-! ## C5 — visible region names come from the loaded geometry -/

/-- C5: after a successful load (from the cache or from the network), the
visible region names are exactly the loaded geometry's feature names with
the falsy (empty) ones filtered out, in feature order. -/
theorem loadMap_regionNames_from_geometry (net : Net) (cache : MapCache) (st : ViewState)
    (adcode : Nat) (mapName : String) :
    (∀ g, cache.lookup mapName = some g →
      (loadMap net cache st adcode mapName).state.currentRegionNames =
        (g.features.map (fun f => f.properties.name)).filter (fun s => !s.isEmpty)) ∧
    (∀ g, cache.lookup mapName = none → net adcode = Except.ok g →
      (loadMap net cache st adcode mapName).state.currentRegionNames =
        (g.features.map (fun f => f.properties.name)).filter (fun s => !s.isEmpty)) := by
  constructor
  · intro g h
    simp [loadMap, h, extractRegionNames]
  · intro g h hn
    simp [loadMap, h, hn, extractRegionNames]

/-- C5 witness: loading `sampleGeo` (names `广州市`, `""`, `深圳市`) over
the network yields exactly `[广州市, 深圳市]` — order kept, empty name
dropped. -/
theorem loadMap_regionNames_from_geometry_witness :
    ([] : MapCache).lookup "广东省" = none ∧
    sampleNetOk 440000 = Except.ok sampleGeo ∧
    (loadMap sampleNetOk [] sampleState 440000 "广东省").state.currentRegionNames =
      ["广州市", "深圳市"] :=
  ⟨rfl, rfl,
    ((loadMap_regionNames_from_geometry sampleNetOk [] sampleState 440000 "广东省").2
      sampleGeo rfl rfl).trans rfl⟩

/-! ## C7 — a failed load leaves the previous view intact -/

/-- C7: when the load fails, only the error and loading flags change: the
current map name, adcode, region names, selected date and date window keep
their pre-load values, the cache is not written, and nothing is registered
with the renderer. -/
theorem loadMap_failure_preserves_view (net : Net) (cache : MapCache) (st : ViewState)
    (adcode : Nat) (mapName : String) (e : String)
    (h : cache.lookup mapName = none) (hn : net adcode = Except.error e) :
    (loadMap net cache st adcode mapName).state.currentMapName = st.currentMapName ∧
    (loadMap net cache st adcode mapName).state.currentAdcode = st.currentAdcode ∧
    (loadMap net cache st adcode mapName).state.currentRegionNames = st.currentRegionNames ∧
    (loadMap net cache st adcode mapName).state.selectedDate = st.selectedDate ∧
    (loadMap net cache st adcode mapName).state.dates = st.dates ∧
    (loadMap net cache st adcode mapName).state.error = some (loadErrorMessage mapName) ∧
    (loadMap net cache st adcode mapName).state.isLoading = false ∧
    (loadMap net cache st adcode mapName).cache = cache ∧
    (loadMap net cache st adcode mapName).registered = [] := by
  simp [loadMap, h, hn, loadStart]

/-- C7 witness: a failed load of `"广东省"` from `sampleState` keeps the
`china` map, adcode 100000 and the previous region list on screen. -/
theorem loadMap_failure_preserves_view_witness :
    ([] : MapCache).lookup "广东省" = none ∧
    sampleNetError 440000 = Except.error "HTTP 500" ∧
    (loadMap sampleNetError [] sampleState 440000 "广东省").state.currentMapName = "china" ∧
    (loadMap sampleNetError [] sampleState 440000 "广东省").state.currentAdcode = 100000 ∧
    (loadMap sampleNetError [] sampleState 440000 "广东省").state.currentRegionNames =
      ["北京市"] ∧
    (loadMap sampleNetError [] sampleState 440000 "广东省").state.error =
      some (loadErrorMessage "广东省") :=
  ⟨rfl, rfl,
    ((loadMap_failure_preserves_view sampleNetError [] sampleState 440000 "广东省"
      "HTTP 500" rfl rfl).1).trans rfl,
    ((loadMap_failure_preserves_view sampleNetError [] sampleState 440000 "广东省"
      "HTTP 500" rfl rfl).2.1).trans rfl,
    ((loadMap_failure_preserves_view sampleNetError [] sampleState 440000 "广东省"
      "HTTP 500" rfl rfl).2.2.1).trans rfl,
    (loadMap_failure_preserves_view sampleNetError [] sampleState 440000 "广东省"
      "HTTP 500" rfl rfl).2.2.2.2.2.1⟩

/-! ## C10 — what the adcode argument influences on a cache hit -/

/-- C10 counterexample: with `"china"` cached, two loads of `"china"` under
different adcodes do NOT produce identical results — the stored
`currentAdcode` differs — refuting the claim that the code argument
influences only the fetch URL on a cache miss. -/
theorem loadMap_adcode_influence_counterexample :
    ([("china", sampleGeo)] : MapCache).lookup "china" = some sampleGeo ∧
    loadMap sampleNetOk [("china", sampleGeo)] sampleState 100000 "china" ≠
      loadMap sampleNetOk [("china", sampleGeo)] sampleState 440000 "china" := by
  refine ⟨rfl, ?_⟩
  intro hEq
  have h := congrArg (fun r => r.state.currentAdcode) hEq
  simp [loadMap] at h

/-- C10 amended: on a cache hit the two results agree on the registered
geometry, region-name list, map identifier, cache and (empty) request list —
the whole result apart from `currentAdcode`, which is always overwritten
with the adcode argument, cache hit or not. -/
theorem loadMap_cache_keyed_by_mapName (net : Net) (cache : MapCache) (st : ViewState)
    (a₁ a₂ : Nat) (mapName : String) (g : GeoJSON)
    (h : cache.lookup mapName = some g) :
    (loadMap net cache st a₁ mapName).registered =
      (loadMap net cache st a₂ mapName).registered ∧
    (loadMap net cache st a₁ mapName).state.currentRegionNames =
      (loadMap net cache st a₂ mapName).state.currentRegionNames ∧
    (loadMap net cache st a₁ mapName).state.currentMapName =
      (loadMap net cache st a₂ mapName).state.currentMapName ∧
    (loadMap net cache st a₁ mapName).cache = (loadMap net cache st a₂ mapName).cache ∧
    (loadMap net cache st a₁ mapName).requests = [] ∧
    (loadMap net cache st a₂ mapName).requests = [] ∧
    (loadMap net cache st a₁ mapName).state.currentAdcode = a₁ ∧
    (loadMap net cache st a₂ mapName).state.currentAdcode = a₂ ∧
    { (loadMap net cache st a₁ mapName).state with currentAdcode := 0 } =
      { (loadMap net cache st a₂ mapName).state with currentAdcode := 0 } := by
  simp [loadMap, h]

/-- C10 amended witness: two cache-hit loads of `"china"` with adcodes
100000 and 440000 register the same geometry, show the same regions and
issue no request, while storing their respective adcodes. -/
theorem loadMap_cache_keyed_by_mapName_witness :
    ([("china", sampleGeo)] : MapCache).lookup "china" = some sampleGeo ∧
    (loadMap sampleNetOk [("china", sampleGeo)] sampleState 100000 "china").registered =
      (loadMap sampleNetOk [("china", sampleGeo)] sampleState 440000 "china").registered ∧
    (loadMap sampleNetOk [("china", sampleGeo)] sampleState 100000 "china").requests = [] ∧
    (loadMap sampleNetOk [("china", sampleGeo)] sampleState 100000 "china").state.currentAdcode =
      100000 ∧
    (loadMap sampleNetOk [("china", sampleGeo)] sampleState 440000 "china").state.currentAdcode =
      440000 :=
  ⟨rfl,
    (loadMap_cache_keyed_by_mapName sampleNetOk [("china", sampleGeo)] sampleState
      100000 440000 "china" sampleGeo rfl).1,
    (loadMap_cache_keyed_by_mapName sampleNetOk [("china", sampleGeo)] sampleState
      100000 440000 "china" sampleGeo rfl).2.2.2.2.1,
    (loadMap_cache_keyed_by_mapName sampleNetOk [("china", sampleGeo)] sampleState
      100000 440000 "china" sampleGeo rfl).2.2.2.2.2.2.1,
    (loadMap_cache_keyed_by_mapName sampleNetOk [("china", sampleGeo)] sampleState
      100000 440000 "china" sampleGeo rfl).2.2.2.2.2.2.2.1⟩

/-! ## Helper lemmas -/

/-- The sample keeps the input name verbatim. -/
theorem genDatum_name (r₁ r₂ : ℚ) (name : String) : (genDatum r₁ r₂ name).name = name := rfl

/-- `Math.floor(r * 9000) + 1000` lies in `[1000, 9999]` for `r ∈ [0, 1)`. -/
theorem genDatum_value_bounds (r₁ r₂ : ℚ) (name : String)
    (h0 : 0 ≤ r₁) (h1 : r₁ < 1) :
    1000 ≤ (genDatum r₁ r₂ name).value ∧ (genDatum r₁ r₂ name).value ≤ 10000 := by
  have hv : (genDatum r₁ r₂ name).value = ⌊r₁ * 9000⌋ + 1000 := rfl
  have hf0 : 0 ≤ ⌊r₁ * 9000⌋ := Int.floor_nonneg.mpr (by positivity)
  have hf1 : ⌊r₁ * 9000⌋ < 9000 := by
    rw [Int.floor_lt]
    push_cast
    nlinarith
  rw [hv]
  omega

/-- The rounded growth `round((r * 0.4 - 0.2) * 100) / 100` lies in
`[-0.2, 0.2]` for `r ∈ [0, 1)`. -/
theorem genDatum_growth_bounds (r₁ r₂ : ℚ) (name : String)
    (h0 : 0 ≤ r₂) (h1 : r₂ < 1) :
    -(1 / 5 : ℚ) ≤ (genDatum r₁ r₂ name).growth ∧ (genDatum r₁ r₂ name).growth ≤ 1 / 5 := by
  have hg : (genDatum r₁ r₂ name).growth =
      ((round ((r₂ * (2 / 5) - 1 / 5) * 100) : ℤ) : ℚ) / 100 := rfl
  set y : ℚ := (r₂ * (2 / 5) - 1 / 5) * 100 with hy
  have hy0 : (-20 : ℚ) ≤ y := by rw [hy]; nlinarith
  have hy1 : y < 20 := by rw [hy]; nlinarith
  have hr0 : (-20 : ℤ) ≤ round y := by
    rw [round_eq, Int.le_floor]
    push_cast
    linarith
  have hr1 : round y ≤ 20 := by
    rw [round_eq]
    have : ⌊y + 1 / 2⌋ < 21 := by
      rw [Int.floor_lt]
      push_cast
      linarith
    omega
  have hc0 : ((-20 : ℤ) : ℚ) ≤ ((round y : ℤ) : ℚ) := by exact_mod_cast hr0
  have hc1 : ((round y : ℤ) : ℚ) ≤ ((20 : ℤ) : ℚ) := by exact_mod_cast hr1
  rw [hg]
  constructor
  · push_cast at hc0 ⊢
    linarith
  · push_cast at hc1 ⊢
    linarith

/-- The generator keeps the input names in order, whatever the stream
position. -/
theorem generateDataAux_map_name (rand : Nat → ℚ) (l : List String) :
    ∀ k, (generateDataAux rand k l).map MapData.name = l := by
  induction l with
  | nil => intro k; rfl
  | cons a t ih =>
      intro k
      simp [generateDataAux, genDatum_name, ih (k + 2)]

/-- Every sample produced from an in-range stream satisfies both interval
bounds, whatever the stream position. -/
theorem generateDataAux_bounds (rand : Nat → ℚ) (hr : ∀ i, 0 ≤ rand i ∧ rand i < 1)
    (l : List String) :
    ∀ k, ∀ s ∈ generateDataAux rand k l,
      1000 ≤ s.value ∧ s.value ≤ 10000 ∧ -(1 / 5 : ℚ) ≤ s.growth ∧ s.growth ≤ 1 / 5 := by
  induction l with
  | nil => intro k s hs; cases hs
  | cons a t ih =>
      intro k s hs
      simp only [generateDataAux] at hs
      rw [List.mem_cons] at hs
      rcases hs with rfl | hs
      · obtain ⟨hv1, hv2⟩ := genDatum_value_bounds (rand k) (rand (k + 1)) a
          (hr k).1 (hr k).2
        obtain ⟨hg1, hg2⟩ := genDatum_growth_bounds (rand k) (rand (k + 1)) a
          (hr (k + 1)).1 (hr (k + 1)).2
        exact ⟨hv1, hv2, hg1, hg2⟩
      · exact ih (k + 2) s hs

/-! ## C6 — generateData: one sample per name, in order, within bounds -/

/-- C6: for a random stream with values in `[0, 1)`, `generateData` returns
one sample per input name carrying the same names in the same order, and
every sample has `value ∈ [1000, 10000]` and `growth ∈ [-0.2, 0.2]`. -/
theorem generateData_contract (rand : Nat → ℚ) (names : List String)
    (hr : ∀ i, 0 ≤ rand i ∧ rand i < 1) :
    (generateData rand names).map MapData.name = names ∧
    (generateData rand names).length = names.length ∧
    ∀ s ∈ generateData rand names,
      1000 ≤ s.value ∧ s.value ≤ 10000 ∧ -(1 / 5 : ℚ) ≤ s.growth ∧ s.growth ≤ 1 / 5 := by
  refine ⟨generateDataAux_map_name rand names 0, ?_, generateDataAux_bounds rand hr names 0⟩
  have h := congrArg List.length (generateDataAux_map_name rand names 0)
  simpa using h

/-- C6 witness: the constant stream `1/2` on two names yields the two names
back in order (with the in-range hypothesis discharged concretely). -/
theorem generateData_contract_witness :
    (∀ i : Nat, 0 ≤ (fun _ : Nat => (1 : ℚ) / 2) i ∧ (fun _ : Nat => (1 : ℚ) / 2) i < 1) ∧
    (generateData (fun _ : Nat => (1 : ℚ) / 2) ["北京市", "上海市"]).map MapData.name =
      ["北京市", "上海市"] :=
  ⟨fun _ => by norm_num,
    (generateData_contract (fun _ : Nat => (1 : ℚ) / 2) ["北京市", "上海市"]
      (fun _ => by norm_num)).1⟩

/-! ## C8 — the seven-day date window -/

/-- `loadMap` never writes the date window (`dates` has no setter). -/
theorem loadMap_preserves_dates (net : Net) (cache : MapCache) (st : ViewState)
    (adcode : Nat) (mapName : String) :
    (loadMap net cache st adcode mapName).state.dates = st.dates := by
  unfold loadMap
  cases h : cache.lookup mapName with
  | some g => simp [loadStart]
  | none => cases hn : net adcode <;> simp [loadStart]

/-- The click handler never writes the date window. -/
theorem handleClick_preserves_dates (net : Net) (cache : MapCache) (st : ViewState)
    (componentType name : String) :
    (handleClick net cache st componentType name).state.dates = st.dates := by
  unfold handleClick
  split
  · split
    · split
      · exact loadMap_preserves_dates net cache st _ name
      · rfl
    · rfl
  · rfl

/-- C8: `getLast7Days` returns exactly the seven days `today - 6 … today`,
in ascending order with today last; the initial state stores this window
(and selects its last entry, today), and no operation — load, date
selection, or click — ever rewrites the stored window. -/
theorem getLast7Days_window (today : Int) (net : Net) (cache : MapCache) (st : ViewState)
    (adcode : Nat) (mapName componentType name : String) (d : Int) :
    getLast7Days today =
      [today - 6, today - 5, today - 4, today - 3, today - 2, today - 1, today] ∧
    (getLast7Days today).length = 7 ∧
    (getLast7Days today).getLast? = some today ∧
    List.Chain' (· < ·) (getLast7Days today) ∧
    (initialState today).dates = getLast7Days today ∧
    (initialState today).selectedDate = today ∧
    (loadMap net cache st adcode mapName).state.dates = st.dates ∧
    (selectDate st d).dates = st.dates ∧
    (handleClick net cache st componentType name).state.dates = st.dates := by
  have hlist : getLast7Days today =
      [today - 6, today - 5, today - 4, today - 3, today - 2, today - 1, today] := by
    simp [getLast7Days, List.range_succ]
  refine ⟨hlist, ?_, ?_, ?_, rfl, ?_, loadMap_preserves_dates net cache st adcode mapName,
    rfl, handleClick_preserves_dates net cache st componentType name⟩
  · rw [hlist]
    rfl
  · rw [hlist]
    rfl
  · rw [hlist]
    simp only [List.chain'_cons, List.chain'_singleton, and_true]
    omega
  · show (getLast7Days today).getD 6 0 = today
    rw [hlist]
    rfl
